import Mathlib

/-!
Shallow embedding of `src/lingua/lingua_sdk.py` (VectorInstitute/lingua-sdk):
the `Client` class (constructor, `authenticate`, `get_models`, `load_model`)
and the `Model` class (`verify_request`, `generate_text`, `get_activations`,
`module_names`).  HTTP responses are supplied as oracles/arguments; side
effects (token file writes, prompts, network requests) are made explicit in
return values and event traces.
-/

namespace LinguaSDK

/-- One HTTP response to a login attempt: the status code and (when status
is 200) the `token` field of the JSON body. -/
structure AuthResponse where
  status : Nat
  token : String
deriving DecidableEq, Repr

/-- Outcome of `Client.authenticate`: either the token on success, or the
`Exception("Too many failed login attempts.")` raised after 3 failures. -/
inductive AuthResult where
  | success (token : String)
  | authFailure
deriving DecidableEq, Repr

/-- Observable side effects of the client, in order of occurrence. -/
inductive Event where
  | prompt
  | request (endpoint : String)
  | save (token : String)
deriving DecidableEq, Repr

/-- The `while num_tries < 3` loop of `Client.authenticate`
(`lingua_sdk.py:57-72`), recursing on the number of tries left
(`tries = 3 - num_tries`); `i` is the index of the current attempt and
`oracle i` the HTTP response it receives; `store` is the content of
`JWT_TOKEN_FILE`.  Each iteration prompts for credentials and posts to
`authenticate`; on 200 the token is assigned to `auth_key`, written to the
token file, and returned; otherwise `num_tries` is incremented and the
loop re-prompts.  When the tries are exhausted the
`Exception("Too many failed login attempts.")` is raised. -/
def authAttempts (tries i : Nat) (oracle : Nat → AuthResponse)
    (store : Option String) : AuthResult × Option String × List Event :=
  match tries with
  | 0 => (.authFailure, store, [])
  | t + 1 =>
      let r := oracle i
      if r.status = 200 then
        (.success r.token, some r.token,
          [.prompt, .request "authenticate", .save r.token])
      else
        let rest := authAttempts t (i + 1) oracle store
        (rest.1, rest.2.1, .prompt :: .request "authenticate" :: rest.2.2)

/-- Model of `Client.authenticate` (`lingua_sdk.py:55-72`): the loop
entered with `num_tries = 0`, i.e. 3 tries left.  Returns (result,
token-file content afterwards, event trace). -/
def authenticate (oracle : Nat → AuthResponse) (store : Option String) :
    AuthResult × Option String × List Event :=
  authAttempts 3 0 oracle store

/-- The error taxonomy visible in the source: the authentication failure
(`lingua_sdk.py:72`), the `ValueError` of `load_model` (`lingua_sdk.py:91`),
and any non-2xx gateway response surfaced by `utils.post`/`utils.get`. -/
inductive PyError where
  | authFailure
  | validationError
  | gatewayError (status : Nat) (body : String)
deriving DecidableEq, Repr

/-- The fields of `Client` that the claims touch (`lingua_sdk.py:23-52`). -/
structure ClientState where
  auth_key : String
  all_model_names : List String
deriving DecidableEq, Repr

/-- Result of running `Client.__init__`: either a constructed client or the
`sys.exit(1)` at `lingua_sdk.py:47`. -/
inductive InitOutcome where
  | ok (c : ClientState)
  | exit (code : Nat)
deriving DecidableEq, Repr

/-- A run of `Client.__init__` with its observable effects. -/
structure InitRun where
  outcome : InitOutcome
  store : Option String
  fileRead : Bool
  prompted : Bool
  authRuns : Nat
deriving DecidableEq, Repr

/-- Python truthiness of the `auth_key` argument as tested by
`if auth_key:` (`lingua_sdk.py:36`): `None` and the empty string are
falsy. -/
def truthy : Option String → Bool
  | some k => k ≠ ""
  | none => false

/-- Model of `Client.__init__` (`lingua_sdk.py:23-52`).  `auth_key` is the optional
constructor argument, `tokenFile` the content of `JWT_TOKEN_FILE` (`none`
when the file does not exist), `oracle` the login responses used if
interactive authentication runs, `modelsResp` the body of the
unauthenticated `GET models` performed at `lingua_sdk.py:49`.
If `auth_key` is truthy it is used directly; otherwise an existing token
file is read whole; otherwise `authenticate()` runs, and any exception it
raises is printed and converted into `sys.exit(1)`. -/
def clientInit (auth_key : Option String) (tokenFile : Option String)
    (oracle : Nat → AuthResponse) (modelsResp : List String) : InitRun :=
  if truthy auth_key then
    { outcome := .ok ⟨auth_key.getD "", modelsResp⟩, store := tokenFile,
      fileRead := false, prompted := false, authRuns := 0 }
  else
    match tokenFile with
    | some s =>
        { outcome := .ok ⟨s, modelsResp⟩, store := some s,
          fileRead := true, prompted := false, authRuns := 0 }
    | none =>
        match authenticate oracle none with
        | (.success t, st, _) =>
            { outcome := .ok ⟨t, modelsResp⟩, store := st,
              fileRead := false, prompted := true, authRuns := 1 }
        | (.authFailure, st, _) =>
            { outcome := .exit 1, store := st,
              fileRead := false, prompted := true, authRuns := 1 }

/-- JSON-like values appearing in request and response bodies.  The only
list-valued entries the embedded calls build are lists of strings
(`[prompt]`, `desired_module_activations`), so a string-list constructor
suffices. -/
inductive Value where
  | str (s : String)
  | nat (n : Nat)
  | bool (b : Bool)
  | strList (l : List String)
deriving DecidableEq, Repr

/-- A Python dict with string keys, as an insertion-ordered association
list with unique keys. -/
abbrev Dict := List (String × Value)

/-- Lookup `d[key]`: first binding wins (keys are unique by
construction). -/
def Dict.get : Dict → String → Option Value
  | [], _ => none
  | (k, v) :: rest, key => if k = key then some v else Dict.get rest key

/-- Assignment `d[key] = v`: replace an existing binding in place, else append —
Python dict assignment semantics. -/
def Dict.set : Dict → String → Value → Dict
  | [], key, v => [(key, v)]
  | (k, w) :: rest, key, v =>
      if k = key then (k, v) :: rest else (k, w) :: Dict.set rest key v

/-- Merge `d.update(other)`: assign every binding of `other` in order. -/
def Dict.updateWith (d other : Dict) : Dict :=
  other.foldl (fun acc kv => Dict.set acc kv.1 kv.2) d

/-- Removal `d.pop(key)` (the removal part; the popped value is read with
`Dict.get` first). -/
def Dict.pop : Dict → String → Dict
  | [], _ => []
  | (k, v) :: rest, key =>
      if k = key then Dict.pop rest key else (k, v) :: Dict.pop rest key

/-- Key list `d.keys()`. -/
def Dict.keys (d : Dict) : List String := d.map Prod.fst

/-- Membership test `key in d.keys()`. -/
def Dict.hasKey (d : Dict) (key : String) : Bool := d.keys.contains key

/-- Renaming step `configs[new] = configs.pop(old)` of
`Model.generate_text` (`lingua_sdk.py:155-164`). -/
def Dict.rename (d : Dict) (old new : String) : Dict :=
  match d.get old with
  | some v => (d.pop old).set new v
  | none => d

/-- The request body built by `Model.generate_text`
(`lingua_sdk.py:148-164`): start from `{}`, assign `prompt`, merge the
caller's keyword arguments, assign `use_grad` (the ambient
`torch.is_grad_enabled()` value), then rename the five legacy keys that
occur among the caller's keyword names. -/
def generateConfigs (prompt : String) (gen_kwargs : Dict) (use_grad : Bool) :
    Dict :=
  let c : Dict := Dict.set [] "prompt" (.str prompt)
  let c := c.updateWith gen_kwargs
  let c := c.set "use_grad" (.bool use_grad)
  let c := if gen_kwargs.hasKey "max_tokens" then c.rename "max_tokens" "max-tokens" else c
  let c := if gen_kwargs.hasKey "top_k" then c.rename "top_k" "top-k" else c
  let c := if gen_kwargs.hasKey "top_p" then c.rename "top_p" "top-p" else c
  let c := if gen_kwargs.hasKey "num_sequences" then c.rename "num_sequences" "num_return_sequences" else c
  let c := if gen_kwargs.hasKey "rep_penalty" then c.rename "rep_penalty" "repetition_penalty" else c
  c

/-- One guarded renaming `if old in parameters: configs[new] =
configs.pop(old)` of `generate_text` (`lingua_sdk.py:155-164`). -/
def condRename (b : Bool) (old new : String) (c : Dict) : Dict :=
  if b then c.rename old new else c

/-- The five conditional renamings of `generate_text`
(`lingua_sdk.py:155-164`) factored out of `generateConfigs`: applied to
the configs dict `c`, each guarded by membership of the legacy name in
the caller's keyword names `kw`. -/
def applyRenames (kw c : Dict) : Dict :=
  condRename (kw.hasKey "rep_penalty") "rep_penalty" "repetition_penalty"
    (condRename (kw.hasKey "num_sequences") "num_sequences" "num_return_sequences"
      (condRename (kw.hasKey "top_p") "top_p" "top-p"
        (condRename (kw.hasKey "top_k") "top_k" "top-k"
          (condRename (kw.hasKey "max_tokens") "max_tokens" "max-tokens" c))))

/-- The configs dict of `generate_text` just before the renamings
(`lingua_sdk.py:148-151`): `{}` with `prompt` assigned, the caller's
keyword arguments merged in, and `use_grad` assigned. -/
def genStage2 (p : String) (kw : Dict) (g : Bool) : Dict :=
  Dict.set (Dict.updateWith (Dict.set [] "prompt" (.str p)) kw)
    "use_grad" (.bool g)

/-- The body the spec's words prescribe for `generate(prompt, args)`:
`{prompt, generation_args: args}` with the arguments nested under one
key.  (The embedded `Value` type has no dict constructor, so the nested
mapping is flattened into a marker: what matters for the comparison is
which top-level keys exist.)  Stated from the spec, for the refinement
comparison only. -/
def specGenerateBodyKeys : List String := ["prompt", "generation_args"]

/-- The structured result of `generate_text`
(`lingua_sdk.py:168-169`): `namedtuple('GenObj', generation.keys())`
applied to the response mapping.  Its fields are exactly the response
keys. -/
def resultFields (generation : Dict) : List String := generation.keys

/-- Attribute access on the structured result: a field exists exactly for
each response key (a missing key is an `AttributeError`, i.e. `none`,
never a null-valued default). -/
def resultGet (generation : Dict) (k : String) : Option Value :=
  generation.get k

/-- The request body built by `Model.get_activations`
(`lingua_sdk.py:181-185`): the prompt wrapped in a singleton list, fixed
`max_tokens = 0` and `echo = True`, and the caller's module names. -/
def activationsConfigs (prompt : String) (modules : List String) : Dict :=
  let c : Dict := Dict.set [] "prompt" (.strList [prompt])
  let c := c.set "max_tokens" (.nat 0)
  let c := c.set "echo" (.bool true)
  c.set "desired_module_activations" (.strList modules)

/-- The body the spec's words prescribe for
`get_activations(prompt, module_names)`: exactly the caller's prompt and
module names, forwarded as-is.  Stated from the spec, for the refinement
comparison only. -/
def specActivationsBody (prompt : String) (modules : List String) : Dict :=
  [("prompt", .str prompt), ("module_names", .strList modules)]

/-- Return value of `Model.get_activations`: the response mapping verbatim
(`lingua_sdk.py:187-189`): no namedtuple wrapping. -/
def getActivationsReturn (response : Dict) : Dict := response

/-- A run of `Model.verify_request` or of an operation that begins with
it: which error (if any) reaches the caller, whether an interactive login
prompt was triggered, how many times `authenticate()` was invoked, and
the token-file content afterwards. -/
structure OpRun where
  raised : Option PyError
  prompted : Bool
  authRuns : Nat
  store : Option String
deriving DecidableEq, Repr

/-- Model of `Model.verify_request` (`lingua_sdk.py:127-133`).  `verifyErr` is the
outcome of `post(create_addr("verify_token"), ...)`: `none` if it
succeeded, `some e` if it raised.  The bare `except:` swallows any such
error, prints a message, and calls `self.client.authenticate()`; in the
source only the `post` call is inside the `try`, so an exception raised
by `authenticate` itself propagates. -/
def verify_request (verifyErr : Option PyError) (oracle : Nat → AuthResponse)
    (store : Option String) : OpRun :=
  match verifyErr with
  | none => ⟨none, false, 0, store⟩
  | some _ =>
      match authenticate oracle store with
      | (.success _, st, _) => ⟨none, true, 1, st⟩
      | (.authFailure, st, _) => ⟨some .authFailure, true, 1, st⟩

/-- A run of `Model.generate_text` (`lingua_sdk.py:136-171`): the
`verify_request` prologue, then the body construction and the
authenticated post (whose outcome `postResult` is given), then the
namedtuple wrapping. -/
structure GenRun where
  raised : Option PyError
  sent : Option Dict
  result : Option Dict
  prompted : Bool
deriving DecidableEq, Repr

/-- Run of `Model.generate_text`: if `verify_request` raises (its
re-authentication failed), nothing is posted; otherwise the built body is
posted and any gateway error from the post propagates unchanged. -/
def generate_text_run (verifyErr : Option PyError) (oracle : Nat → AuthResponse)
    (store : Option String) (prompt : String) (gen_kwargs : Dict)
    (use_grad : Bool) (postResult : Except PyError Dict) : GenRun :=
  let v := verify_request verifyErr oracle store
  match v.raised with
  | some e => ⟨some e, none, none, v.prompted⟩
  | none =>
      let body := generateConfigs prompt gen_kwargs use_grad
      match postResult with
      | .error e => ⟨some e, some body, none, v.prompted⟩
      | .ok gen => ⟨none, some body, some gen, v.prompted⟩

/-- Outcome of `Client.load_model` (`lingua_sdk.py:84-106`): a returned
`Model` handle, the `ValueError` raised for an unknown model name, or
`polling` when the scripted status observations ran out while every one
read `"Inactive"` (the loop is still running). -/
inductive LoadOutcome where
  | handle (model_name : String)
  | validationError
  | polling
deriving DecidableEq, Repr

/-- The wait loop `while self.get_models()[model_name] == "Inactive"`
(`lingua_sdk.py:103-104`): consume observed statuses while they read
`"Inactive"`; the first other observation exits the loop and the handle
is returned.  Also counts the `get_models` calls the loop makes. -/
def waitLoop (model_name : String) : List String → LoadOutcome × Nat
  | [] => (.polling, 0)
  | s :: rest =>
      if s = "Inactive" then
        let r := waitLoop model_name rest
        (r.1, r.2 + 1)
      else (.handle model_name, 1)

/-- The `models/instances` endpoint read by `Client.get_models`. -/
def getModelsEndpoint : String := "models/instances"

/-- The launch endpoint posted by `Client.load_model`
(`lingua_sdk.py:98-102`). -/
def launchEndpoint (model_name : String) : String :=
  "models/" ++ model_name ++ "/launch"

/-- Model of `Client.load_model` (`lingua_sdk.py:84-106`).  `allNames` is
`self.all_model_names`; `obs` is the sequence of values
`get_models()[model_name]` returns on successive calls (the first is the
check at line 96, the rest the poll iterations).  Returns the outcome and
the list of network endpoints hit, in order.  An unknown name raises
`ValueError` before anything is sent; a first observation other than
`"Inactive"` skips the launch and returns the handle at once. -/
def load_model (allNames : List String) (model_name : String)
    (obs : List String) : LoadOutcome × List String :=
  if model_name ∈ allNames then
    match obs with
    | [] => (.polling, [])
    | s :: rest =>
        if s = "Inactive" then
          let r := waitLoop model_name rest
          (r.1, getModelsEndpoint :: launchEndpoint model_name ::
                  List.replicate r.2 getModelsEndpoint)
        else (.handle model_name, [getModelsEndpoint])
  else (.validationError, [])

/-- One access to the `cached_property` `Model.module_names`
(`lingua_sdk.py:192-196`): on a cache miss it runs `verify_request` (one
`POST verify_token`) and the `GET module_names` fetch — two session calls
— and stores the result; on a hit it returns the cached value with no
session call.  `fetched` is what the gateway would return for the fetch. -/
def moduleNamesStep (fetched : List String) :
    Option (List String) → List String × Option (List String) × Nat
  | some v => (v, some v, 0)
  | none => (fetched, some fetched, 2)

/-- Repeated accesses to `module_names` on one handle starting from an
empty cache: the cache after `n` accesses and the total number of
underlying session calls those accesses made. -/
def moduleNamesAccesses (fetched : List String) :
    Nat → Option (List String) × Nat
  | 0 => (none, 0)
  | n + 1 =>
      let prev := moduleNamesAccesses fetched n
      let step := moduleNamesStep fetched prev.1
      (step.2.1, prev.2 + step.2.2)

/-! Helper lemmas shared by the claim theorems. -/

/-- Unfolding of a failing login attempt. -/
theorem authAttempts_fail_step (t i : Nat) (oracle : Nat → AuthResponse)
    (store : Option String) (h : (oracle i).status ≠ 200) :
    authAttempts (t + 1) i oracle store =
      ((authAttempts t (i + 1) oracle store).1,
       (authAttempts t (i + 1) oracle store).2.1,
       .prompt :: .request "authenticate" ::
         (authAttempts t (i + 1) oracle store).2.2) := by
  simp [authAttempts, h]

/-- Unfolding of a succeeding login attempt. -/
theorem authAttempts_ok_step (t i : Nat) (oracle : Nat → AuthResponse)
    (store : Option String) (h : (oracle i).status = 200) :
    authAttempts (t + 1) i oracle store =
      (.success (oracle i).token, some (oracle i).token,
        [.prompt, .request "authenticate", .save (oracle i).token]) := by
  simp [authAttempts, h]

/-- When all three login attempts fail, `authenticate` raises the failure,
leaves the token file untouched, and its trace is three prompt/request
pairs with no save. -/
theorem authenticate_all_fail (oracle : Nat → AuthResponse)
    (h : ∀ i, i < 3 → (oracle i).status ≠ 200) (store : Option String) :
    authenticate oracle store =
      (.authFailure, store,
        [.prompt, .request "authenticate", .prompt, .request "authenticate",
         .prompt, .request "authenticate"]) := by
  have h0 := h 0 (by norm_num)
  have h1 := h 1 (by norm_num)
  have h2 := h 2 (by norm_num)
  simp [authenticate, authAttempts, h0, h1, h2]

/-- Reading back the key just assigned. -/
theorem Dict.get_set_self (d : Dict) (k : String) (v : Value) :
    (d.set k v).get k = some v := by
  induction d with
  | nil => simp [Dict.set, Dict.get]
  | cons kv rest ih =>
      obtain ⟨a, w⟩ := kv
      by_cases h : a = k
      · simp [Dict.set, Dict.get, h]
      · simp [Dict.set, Dict.get, h, ih]

/-- Assignment does not disturb other keys. -/
theorem Dict.get_set_ne (d : Dict) (k x : String) (v : Value) (h : x ≠ k) :
    (d.set k v).get x = d.get x := by
  induction d with
  | nil => simp [Dict.set, Dict.get, Ne.symm h]
  | cons kv rest ih =>
      obtain ⟨a, w⟩ := kv
      by_cases hak : a = k
      · subst hak
        have hax : ¬a = x := fun hh => h hh.symm
        simp [Dict.set, Dict.get, hax]
      · simp [Dict.set, Dict.get, hak, ih]

/-- A popped key is gone. -/
theorem Dict.get_pop_self (d : Dict) (k : String) : (d.pop k).get k = none := by
  induction d with
  | nil => rfl
  | cons kv rest ih =>
      obtain ⟨a, w⟩ := kv
      by_cases hak : a = k
      · simp [Dict.pop, hak, ih]
      · simp [Dict.pop, Dict.get, hak, ih]

/-- Popping does not disturb other keys. -/
theorem Dict.get_pop_ne (d : Dict) (k x : String) (h : x ≠ k) :
    (d.pop k).get x = d.get x := by
  induction d with
  | nil => rfl
  | cons kv rest ih =>
      obtain ⟨a, w⟩ := kv
      by_cases hak : a = k
      · subst hak
        have hax : ¬a = x := fun hh => h hh.symm
        simp [Dict.pop, Dict.get, hax, ih]
      · simp [Dict.pop, Dict.get, hak, ih]

/-- A key absent from a dict reads as `none`. -/
theorem Dict.get_eq_none_of_not_mem (d : Dict) (k : String)
    (h : k ∉ d.keys) : d.get k = none := by
  induction d with
  | nil => rfl
  | cons kv rest ih =>
      obtain ⟨a, w⟩ := kv
      have hcons : Dict.keys ((a, w) :: rest) = a :: Dict.keys rest := rfl
      rw [hcons] at h
      simp only [List.mem_cons] at h
      push_neg at h
      have hak : ¬a = k := fun hh => h.1 hh.symm
      simp [Dict.get, hak, ih h.2]

/-- A key that reads as `some` is among the keys. -/
theorem Dict.mem_keys_of_get_some (d : Dict) (k : String) (v : Value)
    (h : d.get k = some v) : k ∈ d.keys := by
  by_contra hn
  rw [Dict.get_eq_none_of_not_mem d k hn] at h
  cases h

/-- A key among the keys does not read as `none`. -/
theorem Dict.get_ne_none_of_mem (d : Dict) (k : String)
    (h : k ∈ d.keys) : d.get k ≠ none := by
  induction d with
  | nil => simp [Dict.keys] at h
  | cons kv rest ih =>
      obtain ⟨a, w⟩ := kv
      by_cases hak : a = k
      · simp [Dict.get, hak]
      · have hcons : Dict.keys ((a, w) :: rest) = a :: Dict.keys rest := rfl
        rw [hcons] at h
        have hk : k ∈ Dict.keys rest := by
          rcases List.mem_cons.mp h with h1 | h2
          · exact absurd h1.symm hak
          · exact h2
        simp [Dict.get, hak, ih hk]

/-- Keys found by `get` are contained in the key list. -/
theorem Dict.hasKey_of_get_some (d : Dict) (k : String) (v : Value)
    (h : d.get k = some v) : d.hasKey k = true := by
  have hm := Dict.mem_keys_of_get_some d k v h
  simpa [Dict.hasKey] using hm

/-- Renaming does not disturb keys other than the source and target. -/
theorem Dict.get_rename_other (c : Dict) (o t x : String)
    (ho : x ≠ o) (ht : x ≠ t) : (c.rename o t).get x = c.get x := by
  unfold Dict.rename
  cases hc : c.get o with
  | none => rfl
  | some v => rw [Dict.get_set_ne _ _ _ _ ht, Dict.get_pop_ne _ _ _ ho]

/-- Renaming moves the bound value to the target key. -/
theorem Dict.get_rename_target (c : Dict) (o t : String) (v : Value)
    (hv : c.get o = some v) : (c.rename o t).get t = some v := by
  unfold Dict.rename
  rw [hv]
  exact Dict.get_set_self _ _ _

/-- Renaming a bound source key removes it. -/
theorem Dict.get_rename_source (c : Dict) (o t : String) (v : Value)
    (hot : o ≠ t) (hv : c.get o = some v) : (c.rename o t).get o = none := by
  unfold Dict.rename
  rw [hv, Dict.get_set_ne _ _ _ _ hot, Dict.get_pop_self]

/-- A conditional rename does not disturb uninvolved keys, whichever way
the guard goes. -/
theorem Dict.get_ite_rename_other (c : Dict) (b : Bool) (o t x : String)
    (ho : x ≠ o) (ht : x ≠ t) :
    (if b then c.rename o t else c).get x = c.get x := by
  cases b
  · rfl
  · simp [Dict.get_rename_other c o t x ho ht]

/-- Unfolding `update` over a cons. -/
theorem Dict.updateWith_cons (d : Dict) (a : String) (v : Value)
    (rest : Dict) :
    d.updateWith ((a, v) :: rest) = (d.set a v).updateWith rest := rfl

/-- A key unbound in the merged-in dict keeps its original value. -/
theorem Dict.get_updateWith_none (other : Dict) :
    ∀ (d : Dict) (k : String),
      other.get k = none → (d.updateWith other).get k = d.get k := by
  induction other with
  | nil => intro d k _; rfl
  | cons kv rest ih =>
      intro d k h
      obtain ⟨a, v⟩ := kv
      by_cases hak : a = k
      · simp [Dict.get, hak] at h
      · have hrest : Dict.get rest k = none := by simpa [Dict.get, hak] using h
        rw [Dict.updateWith_cons, ih _ _ hrest,
          Dict.get_set_ne _ _ _ _ (fun hh : k = a => hak hh.symm)]

/-- A key bound in the merged-in dict (with unique keys) ends with that
binding's value. -/
theorem Dict.get_updateWith_some (other : Dict) :
    ∀ (d : Dict) (k : String) (v : Value),
      other.keys.Nodup → other.get k = some v →
      (d.updateWith other).get k = some v := by
  induction other with
  | nil => intro d k v _ h; cases h
  | cons kv rest ih =>
      intro d k v hnod h
      obtain ⟨a, w⟩ := kv
      have hcons : Dict.keys ((a, w) :: rest) = a :: Dict.keys rest := rfl
      rw [hcons] at hnod
      have hnod' := List.nodup_cons.mp hnod
      rw [Dict.updateWith_cons]
      by_cases hak : a = k
      · subst hak
        have hv : w = v := by simpa [Dict.get] using h
        have hrest : Dict.get rest a = none :=
          Dict.get_eq_none_of_not_mem rest a hnod'.1
        rw [Dict.get_updateWith_none rest _ _ hrest, hv, Dict.get_set_self]
      · have hrest : Dict.get rest k = some v := by simpa [Dict.get, hak] using h
        exact ih _ _ _ hnod'.2 hrest

/-- A guarded rename does not disturb uninvolved keys, whichever way the
guard goes. -/
theorem condRename_get_other (b : Bool) (o t : String) (c : Dict)
    (x : String) (ho : x ≠ o) (ht : x ≠ t) :
    Dict.get (condRename b o t c) x = Dict.get c x :=
  Dict.get_ite_rename_other c b o t x ho ht

/-- A guarded rename whose guard holds moves the bound value to the
target key. -/
theorem condRename_get_target (b : Bool) (o t : String) (c : Dict)
    (v : Value) (hb : b = true) (hv : Dict.get c o = some v) :
    Dict.get (condRename b o t c) t = some v := by
  subst hb
  unfold condRename
  simpa using Dict.get_rename_target c o t v hv

/-- A guarded rename whose guard holds removes the bound source key. -/
theorem condRename_get_source (b : Bool) (o t : String) (c : Dict)
    (v : Value) (hb : b = true) (hot : o ≠ t)
    (hv : Dict.get c o = some v) :
    Dict.get (condRename b o t c) o = none := by
  subst hb
  unfold condRename
  simpa using Dict.get_rename_source c o t v hot hv

/-- Rename chains skip keys uninvolved in every renaming. -/
theorem applyRenames_get_other (kw c : Dict) (x : String)
    (h1 : x ≠ "max_tokens") (h2 : x ≠ "max-tokens")
    (h3 : x ≠ "top_k") (h4 : x ≠ "top-k")
    (h5 : x ≠ "top_p") (h6 : x ≠ "top-p")
    (h7 : x ≠ "num_sequences") (h8 : x ≠ "num_return_sequences")
    (h9 : x ≠ "rep_penalty") (h10 : x ≠ "repetition_penalty") :
    Dict.get (applyRenames kw c) x = Dict.get c x := by
  unfold applyRenames
  rw [condRename_get_other _ _ _ _ _ h9 h10,
    condRename_get_other _ _ _ _ _ h7 h8,
    condRename_get_other _ _ _ _ _ h5 h6,
    condRename_get_other _ _ _ _ _ h3 h4,
    condRename_get_other _ _ _ _ _ h1 h2]

/-- The `generate_text` body is the pre-rename configs dict run through
the rename chain. -/
theorem generateConfigs_eq (p : String) (kw : Dict) (g : Bool) :
    generateConfigs p kw g = applyRenames kw (genStage2 p kw g) := rfl

/-- The pre-rename configs dict binds `use_grad` to the ambient grad
flag. -/
theorem genStage2_get_use_grad (p : String) (kw : Dict) (g : Bool) :
    Dict.get (genStage2 p kw g) "use_grad" = some (.bool g) :=
  Dict.get_set_self _ _ _

/-- A caller keyword (other than `use_grad`) keeps its value in the
pre-rename configs dict. -/
theorem genStage2_get_of_kw_some (p : String) (kw : Dict) (g : Bool)
    (x : String) (v : Value) (hnod : (Dict.keys kw).Nodup)
    (hx : Dict.get kw x = some v) (hxu : x ≠ "use_grad") :
    Dict.get (genStage2 p kw g) x = some v := by
  unfold genStage2
  rw [Dict.get_set_ne _ _ _ _ hxu]
  exact Dict.get_updateWith_some kw _ x v hnod hx

/-- A key the caller did not pass (other than `prompt` and `use_grad`) is
absent from the pre-rename configs dict. -/
theorem genStage2_get_none (p : String) (kw : Dict) (g : Bool)
    (x : String) (hx : Dict.get kw x = none) (hxu : x ≠ "use_grad")
    (hxp : x ≠ "prompt") :
    Dict.get (genStage2 p kw g) x = none := by
  unfold genStage2
  rw [Dict.get_set_ne _ _ _ _ hxu, Dict.get_updateWith_none kw _ x hx]
  simp [Dict.set, Dict.get, Ne.symm hxp]

/-- When the caller did not pass `prompt` as a keyword, the pre-rename
configs dict binds `prompt` to the positional prompt. -/
theorem genStage2_get_prompt (p : String) (kw : Dict) (g : Bool)
    (hx : Dict.get kw "prompt" = none) :
    Dict.get (genStage2 p kw g) "prompt" = some (.str p) := by
  unfold genStage2
  rw [Dict.get_set_ne _ _ _ _ (by decide), Dict.get_updateWith_none kw _ _ hx]
  simp [Dict.set, Dict.get]

/-! Claim theorems. -/

/-- C1: in every run of `authenticate()` whose 3 consecutive login
attempts all receive a non-200 response, the call raises the
authentication failure and the token file is left untouched (the trace
contains no save); each non-200 response increments the attempt counter
and re-prompts (the trace is exactly three prompt/request pairs); and no
caller retries automatically: `Client.__init__` runs `authenticate` once
and converts the failure into `sys.exit(1)`, and `Model.verify_request`
runs it once and propagates the failure. -/
theorem authenticate_three_failures (oracle : Nat → AuthResponse)
    (store : Option String)
    (hfail : ∀ i, i < 3 → (oracle i).status ≠ 200) :
    authenticate oracle store =
      (.authFailure, store,
        [.prompt, .request "authenticate", .prompt, .request "authenticate",
         .prompt, .request "authenticate"]) ∧
    (∀ models, clientInit none none oracle models =
        ⟨.exit 1, none, false, true, 1⟩) ∧
    (∀ e st, verify_request (some e) oracle st =
        ⟨some .authFailure, true, 1, st⟩) := by
  refine ⟨authenticate_all_fail oracle hfail store, ?_, ?_⟩
  · intro models
    simp [clientInit, truthy, authenticate_all_fail oracle hfail none]
  · intro e st
    simp [verify_request, authenticate_all_fail oracle hfail st]

/-- Witness for C1 at a concrete all-failing oracle. -/
theorem authenticate_three_failures_witness :
    (∀ i, i < 3 →
        ((fun _ => AuthResponse.mk 401 "denied") i).status ≠ 200) ∧
    authenticate (fun _ => AuthResponse.mk 401 "denied") (some "old") =
      (.authFailure, some "old",
        [.prompt, .request "authenticate", .prompt, .request "authenticate",
         .prompt, .request "authenticate"]) ∧
    clientInit none none (fun _ => AuthResponse.mk 401 "denied") ["m"] =
      ⟨.exit 1, none, false, true, 1⟩ := by
  have hfail : ∀ i, i < 3 →
      ((fun _ => AuthResponse.mk 401 "denied") i).status ≠ 200 := by decide
  have h := authenticate_three_failures (fun _ => AuthResponse.mk 401 "denied")
    (some "old") hfail
  exact ⟨hfail, h.1, h.2.1 ["m"]⟩

/-- C5: in every run of `authenticate()` in which attempt `i < 3` is the
first to receive HTTP 200, the token extracted from that response is the
value returned, it is written to the token file (the save is the final
event of the run, so it precedes any subsequent request), and the client
constructed through interactive login holds an `auth_key` equal to the
token-file content afterwards. -/
theorem authenticate_success_persists (oracle : Nat → AuthResponse)
    (store : Option String) (i : Nat) (hi : i < 3)
    (hprev : ∀ j, j < i → (oracle j).status ≠ 200)
    (hok : (oracle i).status = 200) :
    (authenticate oracle store).1 = .success (oracle i).token ∧
    (authenticate oracle store).2.1 = some (oracle i).token ∧
    (authenticate oracle store).2.2.getLast? =
      some (.save (oracle i).token) ∧
    (∀ models, clientInit none none oracle models =
        ⟨.ok ⟨(oracle i).token, models⟩, some (oracle i).token,
         false, true, 1⟩) := by
  interval_cases i
  · have hfull : ∀ st, authenticate oracle st =
        (.success (oracle 0).token, some (oracle 0).token,
          [.prompt, .request "authenticate", .save (oracle 0).token]) := by
      intro st
      simp [authenticate, authAttempts, hok]
    refine ⟨by rw [hfull store], by rw [hfull store],
       by rw [hfull store]; simp, ?_⟩
    intro models
    simp [clientInit, truthy, hfull none]
  · have h0 := hprev 0 (by norm_num)
    have hfull : ∀ st, authenticate oracle st =
        (.success (oracle 1).token, some (oracle 1).token,
          [.prompt, .request "authenticate",
           .prompt, .request "authenticate", .save (oracle 1).token]) := by
      intro st
      simp [authenticate, authAttempts, h0, hok]
    refine ⟨by rw [hfull store], by rw [hfull store],
       by rw [hfull store]; simp, ?_⟩
    intro models
    simp [clientInit, truthy, hfull none]
  · have h0 := hprev 0 (by norm_num)
    have h1 := hprev 1 (by norm_num)
    have hfull : ∀ st, authenticate oracle st =
        (.success (oracle 2).token, some (oracle 2).token,
          [.prompt, .request "authenticate", .prompt,
           .request "authenticate", .prompt, .request "authenticate",
           .save (oracle 2).token]) := by
      intro st
      simp [authenticate, authAttempts, h0, h1, hok]
    refine ⟨by rw [hfull store], by rw [hfull store],
       by rw [hfull store]; simp, ?_⟩
    intro models
    simp [clientInit, truthy, hfull none]

/-- Witness for C5: the second attempt succeeds with token `tok`. -/
theorem authenticate_success_persists_witness :
    (authenticate
        (fun j => if j = 0 then AuthResponse.mk 500 "" else AuthResponse.mk 200 "tok")
        (some "old")).1 = .success "tok" ∧
    (authenticate
        (fun j => if j = 0 then AuthResponse.mk 500 "" else AuthResponse.mk 200 "tok")
        (some "old")).2.1 = some "tok" ∧
    (authenticate
        (fun j => if j = 0 then AuthResponse.mk 500 "" else AuthResponse.mk 200 "tok")
        (some "old")).2.2.getLast? = some (.save "tok") ∧
    clientInit none none
        (fun j => if j = 0 then AuthResponse.mk 500 "" else AuthResponse.mk 200 "tok")
        ["m"] = ⟨.ok ⟨"tok", ["m"]⟩, some "tok", false, true, 1⟩ := by
  have h := authenticate_success_persists
    (fun j => if j = 0 then AuthResponse.mk 500 "" else AuthResponse.mk 200 "tok")
    (some "old") 1 (by norm_num) (by decide) (by decide)
  exact ⟨h.1, h.2.1, h.2.2.1, h.2.2.2 ["m"]⟩

/-- C3: a model name absent from `self.all_model_names` makes
`load_model` raise `ValueError` with an empty network trace — no call to
create or launch the instance (nor any other call) is made. -/
theorem load_model_unknown_name_fail_fast (allNames : List String)
    (name : String) (obs : List String) (h : name ∉ allNames) :
    load_model allNames name obs = (.validationError, []) := by
  simp [load_model, h]

/-- Witness for C3 at a concrete unknown name. -/
theorem load_model_unknown_name_fail_fast_witness :
    "other" ∉ ["gpt-mini"] ∧
    load_model ["gpt-mini"] "other" ["Active"] = (.validationError, []) := by
  have h : "other" ∉ ["gpt-mini"] := by decide
  exact ⟨h, load_model_unknown_name_fail_fast _ _ _ h⟩

/-- Counterexample to C2 as stated: a poll whose observed state sequence
ends in `"FAILED"` does not raise any load failure — `load_model` exits
the `while ... == "Inactive"` loop on the first non-`"Inactive"`
observation and returns a handle (the source has no FAILED branch and no
`ModelLoadFailure`), and no state check guards the returned handle. -/
theorem load_model_failed_state_returns_handle :
    (load_model ["gpt-mini"] "gpt-mini" ["Inactive", "FAILED"]).1 =
      .handle "gpt-mini" ∧
    (load_model ["gpt-mini"] "gpt-mini" ["Inactive", "FAILED"]).2 =
      [getModelsEndpoint, launchEndpoint "gpt-mini", getModelsEndpoint] := by
  decide

/-- Unfolding of the wait loop when a first non-`"Inactive"` status is
observed after a block of `"Inactive"` ones. -/
theorem waitLoop_exit (name : String) :
    ∀ (pre : List String) (s : String) (post : List String),
      (∀ x ∈ pre, x = "Inactive") → s ≠ "Inactive" →
      waitLoop name (pre ++ s :: post) = (.handle name, pre.length + 1) := by
  intro pre
  induction pre with
  | nil =>
      intro s post _ hs
      simp [waitLoop, hs]
  | cons x xs ih =>
      intro s post hpre hs
      have hx : x = "Inactive" := hpre x (by simp)
      have hxs : ∀ y ∈ xs, y = "Inactive" := fun y hy => hpre y (by simp [hy])
      simp [waitLoop, hx, ih s post hxs hs]

/-- Unfolding of the wait loop when every observation reads
`"Inactive"`: the loop is still running when the script ends. -/
theorem waitLoop_all_inactive (name : String) :
    ∀ obs : List String, (∀ x ∈ obs, x = "Inactive") →
      waitLoop name obs = (.polling, obs.length) := by
  intro obs
  induction obs with
  | nil => intro _; rfl
  | cons x xs ih =>
      intro h
      have hx : x = "Inactive" := h x (by simp)
      have hxs : ∀ y ∈ xs, y = "Inactive" := fun y hy => h y (by simp [hy])
      simp [waitLoop, hx, ih hxs]

/-- C2 amended: for a known model name, the wait-for-active poll of
`load_model` continues on each `"Inactive"` observation (an all-
`"Inactive"` script leaves the loop still polling and returns no handle)
and exits at the first observation that is anything else — `"Active"`,
`"FAILED"`, or any other string — returning a handle; the code raises no
load failure and performs no terminal-state distinction. -/
theorem load_model_poll_amended (allNames : List String) (name : String)
    (hmem : name ∈ allNames) :
    (∀ pre s post, (∀ x ∈ pre, x = "Inactive") → s ≠ "Inactive" →
        (load_model allNames name (pre ++ s :: post)).1 = .handle name) ∧
    (∀ obs, (∀ x ∈ obs, x = "Inactive") →
        (load_model allNames name obs).1 = .polling) := by
  constructor
  · intro pre s post hpre hs
    cases pre with
    | nil => simp [load_model, hmem, hs]
    | cons x xs =>
        have hx : x = "Inactive" := hpre x (by simp)
        have hxs : ∀ y ∈ xs, y = "Inactive" := fun y hy => hpre y (by simp [hy])
        simp [load_model, hmem, hx, waitLoop_exit name xs s post hxs hs]
  · intro obs hobs
    cases obs with
    | nil => simp [load_model, hmem]
    | cons x xs =>
        have hx : x = "Inactive" := hobs x (by simp)
        have hxs : ∀ y ∈ xs, y = "Inactive" := fun y hy => hobs y (by simp [hy])
        simp [load_model, hmem, hx, waitLoop_all_inactive name xs hxs]

/-- Witness for the amended C2: one `"Inactive"` observation followed by
`"Active"` yields a handle; two `"Inactive"` observations leave the loop
polling. -/
theorem load_model_poll_amended_witness :
    "gpt-mini" ∈ ["gpt-mini"] ∧
    (load_model ["gpt-mini"] "gpt-mini"
        (["Inactive"] ++ "Active" :: [])).1 = .handle "gpt-mini" ∧
    (load_model ["gpt-mini"] "gpt-mini" ["Inactive", "Inactive"]).1 =
      .polling := by
  have hmem : "gpt-mini" ∈ ["gpt-mini"] := by decide
  have h := load_model_poll_amended ["gpt-mini"] "gpt-mini" hmem
  exact ⟨hmem, h.1 ["Inactive"] "Active" [] (by decide) (by decide),
    h.2 ["Inactive", "Inactive"] (by decide)⟩

/-- Accesses beyond the first never change the cache or the call count. -/
theorem moduleNamesAccesses_succ (fetched : List String) :
    ∀ n, moduleNamesAccesses fetched (n + 1) = (some fetched, 2) := by
  intro n
  induction n with
  | zero => simp [moduleNamesAccesses, moduleNamesStep]
  | succ k ih =>
      have hstep : moduleNamesAccesses fetched (k + 1 + 1) =
          ((moduleNamesStep fetched (moduleNamesAccesses fetched (k + 1)).1).2.1,
           (moduleNamesAccesses fetched (k + 1)).2 +
             (moduleNamesStep fetched (moduleNamesAccesses fetched (k + 1)).1).2.2) := rfl
      rw [hstep, ih]
      rfl

/-- C6: across any `n ≥ 1` accesses to `module_names` on one handle, the
underlying fetch runs at most once: the total session-call count equals
the cost of the single first-access fetch (one `verify_token` post plus
one `module_names` get), the fetched value is cached, and any further
access returns the cached value with zero new session calls. -/
theorem module_names_cache_once (fetched : List String) (n : Nat)
    (h : 1 ≤ n) :
    moduleNamesAccesses fetched n = (some fetched, 2) ∧
    moduleNamesStep fetched (moduleNamesAccesses fetched n).1 =
      (fetched, some fetched, 0) := by
  obtain ⟨k, rfl⟩ : ∃ k, n = k + 1 := ⟨n - 1, by omega⟩
  rw [moduleNamesAccesses_succ]
  exact ⟨rfl, rfl⟩

/-- Witness for C6 at three accesses. -/
theorem module_names_cache_once_witness :
    (1 : Nat) ≤ 3 ∧
    moduleNamesAccesses ["layer0", "layer1"] 3 =
      (some ["layer0", "layer1"], 2) ∧
    moduleNamesStep ["layer0", "layer1"]
        (moduleNamesAccesses ["layer0", "layer1"] 3).1 =
      (["layer0", "layer1"], some ["layer0", "layer1"], 0) := by
  have h := module_names_cache_once ["layer0", "layer1"] 3 (by norm_num)
  exact ⟨by norm_num, h.1, h.2⟩

/-- Counterexample to C4 as stated: `generate_text("hello",
max_tokens=5)` does not send `{prompt, generation_args: args}` — the
body has no `generation_args` key at all; the arguments are flattened at
top level, `max_tokens` is renamed to `max-tokens`, and a `use_grad` key
the caller never passed is added, so the top-level keys differ from the
spec's `["prompt", "generation_args"]`. -/
theorem generate_body_not_enveloped :
    Dict.get (generateConfigs "hello" [("max_tokens", Value.nat 5)] false)
      "generation_args" = none ∧
    Dict.get (generateConfigs "hello" [("max_tokens", Value.nat 5)] false)
      "max-tokens" = some (.nat 5) ∧
    Dict.get (generateConfigs "hello" [("max_tokens", Value.nat 5)] false)
      "use_grad" = some (.bool false) ∧
    Dict.keys (generateConfigs "hello" [("max_tokens", Value.nat 5)] false) ≠
      specGenerateBodyKeys := by
  decide

/-- C4 amended: `generate_text(prompt, **kwargs)` sends a flat body — no
`generation_args` envelope — holding `prompt`, the caller's keyword
arguments (with the five legacy names `max_tokens`, `top_k`, `top_p`,
`num_sequences`, `rep_penalty` renamed to `max-tokens`, `top-k`,
`top-p`, `num_return_sequences`, `repetition_penalty` and the old names
removed), plus a client-added `use_grad`; the structured result exposes
exactly the keys of the gateway's response (fields are the response
keys, a present key reads its value, a missing key is an access error,
never a null default). -/
theorem generate_text_amended (p : String) (kw : Dict) (g : Bool)
    (hnod : (Dict.keys kw).Nodup)
    (hp : "prompt" ∉ Dict.keys kw) (hug : "use_grad" ∉ Dict.keys kw)
    (hga : "generation_args" ∉ Dict.keys kw)
    (hmt : "max-tokens" ∉ Dict.keys kw) (htk : "top-k" ∉ Dict.keys kw)
    (htp : "top-p" ∉ Dict.keys kw)
    (hns : "num_return_sequences" ∉ Dict.keys kw)
    (hrp : "repetition_penalty" ∉ Dict.keys kw) :
    Dict.get (generateConfigs p kw g) "prompt" = some (.str p) ∧
    Dict.get (generateConfigs p kw g) "use_grad" = some (.bool g) ∧
    Dict.get (generateConfigs p kw g) "generation_args" = none ∧
    (∀ k v, Dict.get kw k = some v →
        k ∉ (["max_tokens", "top_k", "top_p", "num_sequences",
              "rep_penalty"] : List String) →
        Dict.get (generateConfigs p kw g) k = some v) ∧
    (∀ v, Dict.get kw "max_tokens" = some v →
        Dict.get (generateConfigs p kw g) "max-tokens" = some v ∧
        Dict.get (generateConfigs p kw g) "max_tokens" = none) ∧
    (∀ v, Dict.get kw "top_k" = some v →
        Dict.get (generateConfigs p kw g) "top-k" = some v ∧
        Dict.get (generateConfigs p kw g) "top_k" = none) ∧
    (∀ v, Dict.get kw "top_p" = some v →
        Dict.get (generateConfigs p kw g) "top-p" = some v ∧
        Dict.get (generateConfigs p kw g) "top_p" = none) ∧
    (∀ v, Dict.get kw "num_sequences" = some v →
        Dict.get (generateConfigs p kw g) "num_return_sequences" = some v ∧
        Dict.get (generateConfigs p kw g) "num_sequences" = none) ∧
    (∀ v, Dict.get kw "rep_penalty" = some v →
        Dict.get (generateConfigs p kw g) "repetition_penalty" = some v ∧
        Dict.get (generateConfigs p kw g) "rep_penalty" = none) ∧
    (∀ gen : Dict, resultFields gen = Dict.keys gen ∧
        (∀ k, k ∈ resultFields gen → resultGet gen k ≠ none) ∧
        (∀ k, k ∉ resultFields gen → resultGet gen k = none)) := by
  have hkwprompt : Dict.get kw "prompt" = none :=
    Dict.get_eq_none_of_not_mem kw _ hp
  have hkwga : Dict.get kw "generation_args" = none :=
    Dict.get_eq_none_of_not_mem kw _ hga
  refine ⟨?_, ?_, ?_, ?_, ?_, ?_, ?_, ?_, ?_, ?_⟩
  · rw [generateConfigs_eq,
      applyRenames_get_other kw (genStage2 p kw g) "prompt" (by decide)
        (by decide) (by decide) (by decide) (by decide) (by decide)
        (by decide) (by decide) (by decide) (by decide)]
    exact genStage2_get_prompt p kw g hkwprompt
  · rw [generateConfigs_eq,
      applyRenames_get_other kw (genStage2 p kw g) "use_grad" (by decide)
        (by decide) (by decide) (by decide) (by decide) (by decide)
        (by decide) (by decide) (by decide) (by decide)]
    exact genStage2_get_use_grad p kw g
  · rw [generateConfigs_eq,
      applyRenames_get_other kw (genStage2 p kw g) "generation_args"
        (by decide) (by decide) (by decide) (by decide) (by decide)
        (by decide) (by decide) (by decide) (by decide) (by decide)]
    exact genStage2_get_none p kw g _ hkwga (by decide) (by decide)
  · intro k v hv hleg
    have hmem := Dict.mem_keys_of_get_some kw k v hv
    have d1 : k ≠ "max_tokens" := fun hh => hleg (by rw [hh]; decide)
    have d3 : k ≠ "top_k" := fun hh => hleg (by rw [hh]; decide)
    have d5 : k ≠ "top_p" := fun hh => hleg (by rw [hh]; decide)
    have d7 : k ≠ "num_sequences" := fun hh => hleg (by rw [hh]; decide)
    have d9 : k ≠ "rep_penalty" := fun hh => hleg (by rw [hh]; decide)
    have d2 : k ≠ "max-tokens" := fun hh => hmt (hh ▸ hmem)
    have d4 : k ≠ "top-k" := fun hh => htk (hh ▸ hmem)
    have d6 : k ≠ "top-p" := fun hh => htp (hh ▸ hmem)
    have d8 : k ≠ "num_return_sequences" := fun hh => hns (hh ▸ hmem)
    have d10 : k ≠ "repetition_penalty" := fun hh => hrp (hh ▸ hmem)
    have du : k ≠ "use_grad" := fun hh => hug (hh ▸ hmem)
    rw [generateConfigs_eq,
      applyRenames_get_other kw (genStage2 p kw g) k d1 d2 d3 d4 d5 d6 d7
        d8 d9 d10]
    exact genStage2_get_of_kw_some p kw g k v hnod hv du
  · intro v hv
    have hkey : Dict.hasKey kw "max_tokens" = true :=
      Dict.hasKey_of_get_some kw _ _ hv
    have hs2 : Dict.get (genStage2 p kw g) "max_tokens" = some v :=
      genStage2_get_of_kw_some p kw g _ v hnod hv (by decide)
    constructor
    · rw [generateConfigs_eq]
      unfold applyRenames
      rw [condRename_get_other _ "rep_penalty" "repetition_penalty" _
            "max-tokens" (by decide) (by decide),
          condRename_get_other _ "num_sequences" "num_return_sequences" _
            "max-tokens" (by decide) (by decide),
          condRename_get_other _ "top_p" "top-p" _ "max-tokens"
            (by decide) (by decide),
          condRename_get_other _ "top_k" "top-k" _ "max-tokens"
            (by decide) (by decide)]
      exact condRename_get_target _ _ _ _ _ hkey hs2
    · rw [generateConfigs_eq]
      unfold applyRenames
      rw [condRename_get_other _ "rep_penalty" "repetition_penalty" _
            "max_tokens" (by decide) (by decide),
          condRename_get_other _ "num_sequences" "num_return_sequences" _
            "max_tokens" (by decide) (by decide),
          condRename_get_other _ "top_p" "top-p" _ "max_tokens"
            (by decide) (by decide),
          condRename_get_other _ "top_k" "top-k" _ "max_tokens"
            (by decide) (by decide)]
      exact condRename_get_source _ _ _ _ v hkey (by decide) hs2
  · intro v hv
    have hkey : Dict.hasKey kw "top_k" = true :=
      Dict.hasKey_of_get_some kw _ _ hv
    constructor
    · rw [generateConfigs_eq]
      unfold applyRenames
      rw [condRename_get_other _ "rep_penalty" "repetition_penalty" _
            "top-k" (by decide) (by decide),
          condRename_get_other _ "num_sequences" "num_return_sequences" _
            "top-k" (by decide) (by decide),
          condRename_get_other _ "top_p" "top-p" _ "top-k"
            (by decide) (by decide)]
      apply condRename_get_target _ _ _ _ _ hkey
      rw [condRename_get_other _ "max_tokens" "max-tokens" _ "top_k"
            (by decide) (by decide)]
      exact genStage2_get_of_kw_some p kw g _ v hnod hv (by decide)
    · rw [generateConfigs_eq]
      unfold applyRenames
      rw [condRename_get_other _ "rep_penalty" "repetition_penalty" _
            "top_k" (by decide) (by decide),
          condRename_get_other _ "num_sequences" "num_return_sequences" _
            "top_k" (by decide) (by decide),
          condRename_get_other _ "top_p" "top-p" _ "top_k"
            (by decide) (by decide)]
      apply condRename_get_source _ _ _ _ v hkey (by decide)
      rw [condRename_get_other _ "max_tokens" "max-tokens" _ "top_k"
            (by decide) (by decide)]
      exact genStage2_get_of_kw_some p kw g _ v hnod hv (by decide)
  · intro v hv
    have hkey : Dict.hasKey kw "top_p" = true :=
      Dict.hasKey_of_get_some kw _ _ hv
    constructor
    · rw [generateConfigs_eq]
      unfold applyRenames
      rw [condRename_get_other _ "rep_penalty" "repetition_penalty" _
            "top-p" (by decide) (by decide),
          condRename_get_other _ "num_sequences" "num_return_sequences" _
            "top-p" (by decide) (by decide)]
      apply condRename_get_target _ _ _ _ _ hkey
      rw [condRename_get_other _ "top_k" "top-k" _ "top_p"
            (by decide) (by decide),
          condRename_get_other _ "max_tokens" "max-tokens" _ "top_p"
            (by decide) (by decide)]
      exact genStage2_get_of_kw_some p kw g _ v hnod hv (by decide)
    · rw [generateConfigs_eq]
      unfold applyRenames
      rw [condRename_get_other _ "rep_penalty" "repetition_penalty" _
            "top_p" (by decide) (by decide),
          condRename_get_other _ "num_sequences" "num_return_sequences" _
            "top_p" (by decide) (by decide)]
      apply condRename_get_source _ _ _ _ v hkey (by decide)
      rw [condRename_get_other _ "top_k" "top-k" _ "top_p"
            (by decide) (by decide),
          condRename_get_other _ "max_tokens" "max-tokens" _ "top_p"
            (by decide) (by decide)]
      exact genStage2_get_of_kw_some p kw g _ v hnod hv (by decide)
  · intro v hv
    have hkey : Dict.hasKey kw "num_sequences" = true :=
      Dict.hasKey_of_get_some kw _ _ hv
    constructor
    · rw [generateConfigs_eq]
      unfold applyRenames
      rw [condRename_get_other _ "rep_penalty" "repetition_penalty" _
            "num_return_sequences" (by decide) (by decide)]
      apply condRename_get_target _ _ _ _ _ hkey
      rw [condRename_get_other _ "top_p" "top-p" _ "num_sequences"
            (by decide) (by decide),
          condRename_get_other _ "top_k" "top-k" _ "num_sequences"
            (by decide) (by decide),
          condRename_get_other _ "max_tokens" "max-tokens" _
            "num_sequences" (by decide) (by decide)]
      exact genStage2_get_of_kw_some p kw g _ v hnod hv (by decide)
    · rw [generateConfigs_eq]
      unfold applyRenames
      rw [condRename_get_other _ "rep_penalty" "repetition_penalty" _
            "num_sequences" (by decide) (by decide)]
      apply condRename_get_source _ _ _ _ v hkey (by decide)
      rw [condRename_get_other _ "top_p" "top-p" _ "num_sequences"
            (by decide) (by decide),
          condRename_get_other _ "top_k" "top-k" _ "num_sequences"
            (by decide) (by decide),
          condRename_get_other _ "max_tokens" "max-tokens" _
            "num_sequences" (by decide) (by decide)]
      exact genStage2_get_of_kw_some p kw g _ v hnod hv (by decide)
  · intro v hv
    have hkey : Dict.hasKey kw "rep_penalty" = true :=
      Dict.hasKey_of_get_some kw _ _ hv
    constructor
    · rw [generateConfigs_eq]
      unfold applyRenames
      apply condRename_get_target _ _ _ _ _ hkey
      rw [condRename_get_other _ "num_sequences" "num_return_sequences" _
            "rep_penalty" (by decide) (by decide),
          condRename_get_other _ "top_p" "top-p" _ "rep_penalty"
            (by decide) (by decide),
          condRename_get_other _ "top_k" "top-k" _ "rep_penalty"
            (by decide) (by decide),
          condRename_get_other _ "max_tokens" "max-tokens" _
            "rep_penalty" (by decide) (by decide)]
      exact genStage2_get_of_kw_some p kw g _ v hnod hv (by decide)
    · rw [generateConfigs_eq]
      unfold applyRenames
      apply condRename_get_source _ _ _ _ v hkey (by decide)
      rw [condRename_get_other _ "num_sequences" "num_return_sequences" _
            "rep_penalty" (by decide) (by decide),
          condRename_get_other _ "top_p" "top-p" _ "rep_penalty"
            (by decide) (by decide),
          condRename_get_other _ "top_k" "top-k" _ "rep_penalty"
            (by decide) (by decide),
          condRename_get_other _ "max_tokens" "max-tokens" _
            "rep_penalty" (by decide) (by decide)]
      exact genStage2_get_of_kw_some p kw g _ v hnod hv (by decide)
  · intro gen
    refine ⟨rfl, ?_, ?_⟩
    · intro k hk
      exact Dict.get_ne_none_of_mem gen k hk
    · intro k hk
      exact Dict.get_eq_none_of_not_mem gen k hk

/-- Witness for the amended C4 at `generate_text("hello", max_tokens=5,
temperature=7)` with grad disabled. -/
theorem generate_text_amended_witness :
    Dict.get (generateConfigs "hello"
        [("max_tokens", Value.nat 5), ("temperature", Value.nat 7)] false)
      "prompt" = some (.str "hello") ∧
    Dict.get (generateConfigs "hello"
        [("max_tokens", Value.nat 5), ("temperature", Value.nat 7)] false)
      "use_grad" = some (.bool false) ∧
    Dict.get (generateConfigs "hello"
        [("max_tokens", Value.nat 5), ("temperature", Value.nat 7)] false)
      "generation_args" = none ∧
    Dict.get (generateConfigs "hello"
        [("max_tokens", Value.nat 5), ("temperature", Value.nat 7)] false)
      "temperature" = some (.nat 7) ∧
    Dict.get (generateConfigs "hello"
        [("max_tokens", Value.nat 5), ("temperature", Value.nat 7)] false)
      "max-tokens" = some (.nat 5) ∧
    Dict.get (generateConfigs "hello"
        [("max_tokens", Value.nat 5), ("temperature", Value.nat 7)] false)
      "max_tokens" = none := by
  have h := generate_text_amended "hello"
    [("max_tokens", Value.nat 5), ("temperature", Value.nat 7)] false
    (by decide) (by decide) (by decide) (by decide) (by decide)
    (by decide) (by decide) (by decide) (by decide)
  exact ⟨h.1, h.2.1, h.2.2.1,
    h.2.2.2.1 "temperature" (.nat 7) (by decide) (by decide),
    (h.2.2.2.2.1 (.nat 5) (by decide)).1,
    (h.2.2.2.2.1 (.nat 5) (by decide)).2⟩

/-- Counterexample to C9 as stated: `get_activations("hello", ["m1"])`
does not forward exactly the caller's prompt and module names — the
prompt is wrapped in a singleton list and fixed `max_tokens`/`echo` keys
the caller never passed are added, so the body differs from the
forwarded-verbatim body the spec prescribes. -/
theorem get_activations_not_forwarded :
    Dict.get (activationsConfigs "hello" ["m1"]) "prompt" ≠
      some (.str "hello") ∧
    Dict.get (activationsConfigs "hello" ["m1"]) "prompt" =
      some (.strList ["hello"]) ∧
    Dict.get (activationsConfigs "hello" ["m1"]) "echo" =
      some (.bool true) ∧
    Dict.get (specActivationsBody "hello" ["m1"]) "echo" = none ∧
    activationsConfigs "hello" ["m1"] ≠ specActivationsBody "hello" ["m1"] := by
  decide

/-- C9 amended: `get_activations(prompt, module_names)` sends the body
`{prompt: [prompt], max_tokens: 0, echo: True,
desired_module_activations: module_names}` — the prompt listified and
two fixed keys added — and nothing else; the response mapping is
returned verbatim, with no structured-record wrapping (and no
`verify_request` prologue). -/
theorem get_activations_amended (p : String) (modules : List String) :
    Dict.get (activationsConfigs p modules) "prompt" =
      some (.strList [p]) ∧
    Dict.get (activationsConfigs p modules) "max_tokens" =
      some (.nat 0) ∧
    Dict.get (activationsConfigs p modules) "echo" = some (.bool true) ∧
    Dict.get (activationsConfigs p modules) "desired_module_activations" =
      some (.strList modules) ∧
    (∀ k, k ≠ "prompt" → k ≠ "max_tokens" → k ≠ "echo" →
        k ≠ "desired_module_activations" →
        Dict.get (activationsConfigs p modules) k = none) ∧
    (∀ resp : Dict, getActivationsReturn resp = resp) := by
  have hbody : activationsConfigs p modules =
      [("prompt", .strList [p]), ("max_tokens", .nat 0),
       ("echo", .bool true),
       ("desired_module_activations", .strList modules)] := by
    simp [activationsConfigs, Dict.set]
  refine ⟨?_, ?_, ?_, ?_, ?_, fun resp => rfl⟩
  · rw [hbody]; rfl
  · rw [hbody]; rfl
  · rw [hbody]; rfl
  · rw [hbody]; rfl
  · intro k h1 h2 h3 h4
    rw [hbody]
    simp [Dict.get, Ne.symm h1, Ne.symm h2, Ne.symm h3, Ne.symm h4]

/-- Witness for the amended C9 at a concrete prompt and module list. -/
theorem get_activations_amended_witness :
    Dict.get (activationsConfigs "hello" ["m1", "m2"]) "prompt" =
      some (.strList ["hello"]) ∧
    Dict.get (activationsConfigs "hello" ["m1", "m2"])
      "desired_module_activations" = some (.strList ["m1", "m2"]) ∧
    Dict.get (activationsConfigs "hello" ["m1", "m2"]) "temperature" =
      none ∧
    getActivationsReturn [("x", Value.nat 1)] = [("x", Value.nat 1)] := by
  have h := get_activations_amended "hello" ["m1", "m2"]
  exact ⟨h.1, h.2.2.2.1,
    h.2.2.2.2.1 "temperature" (by decide) (by decide) (by decide)
      (by decide),
    h.2.2.2.2.2 [("x", Value.nat 1)]⟩

/-- C7: a failing token-validity check in `verify_request` always
triggers a fresh interactive `authenticate()` prompt and never surfaces
the check's error (no gateway error is ever raised from it); a
succeeding check prompts nothing and raises nothing; and this is the
only swallowing in the request path — an error from the generation post
itself propagates to the caller unchanged. -/
theorem verify_request_reauth_only_swallowed (e : PyError)
    (oracle : Nat → AuthResponse) (store : Option String) :
    (verify_request (some e) oracle store).prompted = true ∧
    (∀ s b, (verify_request (some e) oracle store).raised ≠
        some (.gatewayError s b)) ∧
    verify_request none oracle store = ⟨none, false, 0, store⟩ ∧
    (∀ p kw g e2,
        (generate_text_run none oracle store p kw g (.error e2)).raised =
          some e2) := by
  refine ⟨?_, ?_, rfl, ?_⟩
  · rcases h : authenticate oracle store with ⟨r, st, tr⟩
    cases r with
    | success t => simp [verify_request, h]
    | authFailure => simp [verify_request, h]
  · intro s b
    rcases h : authenticate oracle store with ⟨r, st, tr⟩
    cases r with
    | success t => simp [verify_request, h]
    | authFailure => simp [verify_request, h]
  · intro p kw g e2
    simp [generate_text_run, verify_request]

/-- Witness for C7: an expired-token error triggers the prompt and is
not surfaced; a gateway error from the generation post propagates. -/
theorem verify_request_reauth_witness :
    (verify_request (some (.gatewayError 401 "expired"))
        (fun _ => AuthResponse.mk 200 "tok2") none).prompted = true ∧
    (verify_request (some (.gatewayError 401 "expired"))
        (fun _ => AuthResponse.mk 200 "tok2") none).raised ≠
      some (.gatewayError 401 "expired") ∧
    (generate_text_run none (fun _ => AuthResponse.mk 200 "tok2") none
        "p" [] false (.error (.gatewayError 500 "boom"))).raised =
      some (.gatewayError 500 "boom") := by
  have h := verify_request_reauth_only_swallowed
    (.gatewayError 401 "expired") (fun _ => AuthResponse.mk 200 "tok2")
    none
  exact ⟨h.1, h.2.1 401 "expired",
    h.2.2.2 "p" [] false (.gatewayError 500 "boom")⟩

/-- Counterexample to C8 as stated: an authentication failure raised
during client construction does not propagate to the caller — the
`except` at `lingua_sdk.py:45-47` catches it, prints it, and calls
`sys.exit(1)`, converting the taxonomy error into a process exit. -/
theorem clientInit_converts_authfailure_to_exit :
    (authenticate (fun _ => AuthResponse.mk 403 "denied") none).1 =
      .authFailure ∧
    clientInit none none (fun _ => AuthResponse.mk 403 "denied") ["m"] =
      ⟨.exit 1, none, false, true, 1⟩ := by
  decide

/-- C8 amended: taxonomy errors raised during client operations
propagate to the caller unchanged, with exactly two conversions: (a) a
failing token-validity check is swallowed by `verify_request` and
triggers re-authentication (whose own failure then propagates), and (b)
`Client.__init__` catches an authentication failure and converts it
into `sys.exit(1)`.  Shown here: a gateway error from the generation
post propagates unchanged, the unknown-model `ValueError` propagates,
the re-authentication failure inside `verify_request` propagates, and
construction converts the authentication failure to exit 1. -/
theorem error_propagation_amended (oracle : Nat → AuthResponse)
    (store : Option String) :
    (∀ p kw g e,
        (generate_text_run none oracle store p kw g (.error e)).raised =
          some e) ∧
    (∀ allNames name obs, name ∉ allNames →
        (load_model allNames name obs).1 = .validationError) ∧
    ((∀ i, i < 3 → (oracle i).status ≠ 200) →
        (∀ e st, (verify_request (some e) oracle st).raised =
            some .authFailure) ∧
        (∀ models, clientInit none none oracle models =
            ⟨.exit 1, none, false, true, 1⟩)) := by
  refine ⟨?_, ?_, ?_⟩
  · intro p kw g e
    simp [generate_text_run, verify_request]
  · intro allNames name obs h
    simp [load_model, h]
  · intro hfail
    constructor
    · intro e st
      simp [verify_request, authenticate_all_fail oracle hfail st]
    · intro models
      simp [clientInit, truthy, authenticate_all_fail oracle hfail none]

/-- Witness for the amended C8 at concrete errors and an all-failing
oracle. -/
theorem error_propagation_amended_witness :
    (generate_text_run none (fun _ => AuthResponse.mk 403 "d") none "p"
        [] true (.error (.gatewayError 502 "bad"))).raised =
      some (.gatewayError 502 "bad") ∧
    (load_model ["a"] "b" []).1 = .validationError ∧
    (verify_request (some (.gatewayError 401 "x"))
        (fun _ => AuthResponse.mk 403 "d") none).raised =
      some .authFailure ∧
    clientInit none none (fun _ => AuthResponse.mk 403 "d") [] =
      ⟨.exit 1, none, false, true, 1⟩ := by
  have h := error_propagation_amended (fun _ => AuthResponse.mk 403 "d")
    none
  have h3 := h.2.2 (by decide)
  exact ⟨h.1 "p" [] true (.gatewayError 502 "bad"),
    h.2.1 ["a"] "b" [] (by decide),
    h3.1 (.gatewayError 401 "x") none, h3.2 []⟩

/-- Counterexample to C10 as stated: an `auth_key` argument that is
supplied but empty is not used as the credential — `if auth_key:` tests
truthiness, so the constructor falls through to the token file, reads
it, and uses its content instead of the supplied key. -/
theorem clientInit_empty_authkey_not_used :
    truthy (some "") = false ∧
    clientInit (some "") (some "filetok")
        (fun _ => AuthResponse.mk 200 "t") ["m"] =
      ⟨.ok ⟨"filetok", ["m"]⟩, some "filetok", true, false, 0⟩ ∧
    (clientInit (some "") (some "filetok")
        (fun _ => AuthResponse.mk 200 "t") ["m"]).outcome ≠
      .ok ⟨"", ["m"]⟩ := by
  decide

/-- C10 amended: credential precedence with Python truthiness — a
non-empty `auth_key` argument becomes the credential with neither file
read nor prompt; otherwise (absent or empty `auth_key`) an existing
token file's entire content becomes the credential with no prompt; only
when both are missing does interactive authentication run. -/
theorem credential_precedence_amended (oracle : Nat → AuthResponse)
    (models : List String) :
    (∀ k tf, k ≠ "" → clientInit (some k) tf oracle models =
        ⟨.ok ⟨k, models⟩, tf, false, false, 0⟩) ∧
    (∀ ak s, truthy ak = false →
        clientInit ak (some s) oracle models =
          ⟨.ok ⟨s, models⟩, some s, true, false, 0⟩) ∧
    (∀ ak, truthy ak = false →
        (clientInit ak none oracle models).prompted = true ∧
        (clientInit ak none oracle models).authRuns = 1) := by
  refine ⟨?_, ?_, ?_⟩
  · intro k tf hk
    simp [clientInit, truthy, hk]
  · intro ak s hak
    simp [clientInit, hak]
  · intro ak hak
    rcases h : authenticate oracle none with ⟨r, st, tr⟩
    cases r with
    | success t => constructor <;> simp [clientInit, hak, h]
    | authFailure => constructor <;> simp [clientInit, hak, h]

/-- Witness for the amended C10 at concrete credentials. -/
theorem credential_precedence_amended_witness :
    clientInit (some "key1") (some "filetok")
        (fun _ => AuthResponse.mk 200 "t") ["m"] =
      ⟨.ok ⟨"key1", ["m"]⟩, some "filetok", false, false, 0⟩ ∧
    clientInit none (some "filetok")
        (fun _ => AuthResponse.mk 200 "t") ["m"] =
      ⟨.ok ⟨"filetok", ["m"]⟩, some "filetok", true, false, 0⟩ ∧
    (clientInit none none (fun _ => AuthResponse.mk 200 "t")
        ["m"]).prompted = true := by
  have h := credential_precedence_amended
    (fun _ => AuthResponse.mk 200 "t") ["m"]
  exact ⟨h.1 "key1" (some "filetok") (by decide),
    h.2.1 none "filetok" (by decide), (h.2.2 none (by decide)).1⟩

end LinguaSDK
